/-
Verification of the derived-field recomputation chain of the
Ferreter-a-Buloner-a hardware-store application
(sistema/miAplicacion: models.py, signals.py, views.py, forms.py).

Shallow embedding: the persistent store is an explicit state (association
lists keyed by surrogate id); every model `save` override, the post-save
signal handler, and the relevant views become pure state-transformers
translated line by line from the Python source.  Fixed-point currency
(DecimalField, 2 decimal places) is embedded as `Int` (an exact number of
cents); quantities are `Int` (Django validates positivity only at the
form layer, and the view path feeds plain `int(...)` into the model, so
negative values can reach it); nullable fields are `Option`; Python
truthiness of a numeric field (`if self.cantidad and ...`) is the test
"present and nonzero", and of a CharField the test "nonempty", which for
the receipt number we embed as `Option Nat` (`none` = blank string).
-/
import Mathlib

namespace Ferreteria

/-- Association-list lookup by surrogate key (first match), embedding
`Model.objects.get(pk=k)` / FK dereference against the store. -/
def getById {α : Type} : List (Nat × α) → Nat → Option α
  | [], _ => none
  | (k', v) :: t, k => if k' = k then some v else getById t k

/-- Association-list write-back, embedding a row UPDATE (replace the first
entry with the key) or INSERT (append when absent). -/
def setById {α : Type} : List (Nat × α) → Nat → α → List (Nat × α)
  | [], k, v => [(k, v)]
  | (k', v') :: t, k, v => if k' = k then (k, v) :: t else (k', v') :: setById t k v

/-- Association-list row deletion (all rows with the key), embedding the
storage collaborator's DELETE by primary key. -/
def delById {α : Type} (l : List (Nat × α)) (k : Nat) : List (Nat × α) :=
  l.filter (fun p => p.1 ≠ k)

/-- `Producto` (models.py): the two fields the recomputation chain reads
and writes — current price `precio` and on-hand quantity `cantidad_stock`
— plus `nombre` standing for the remaining descriptive columns, carried
so that frame claims can state they are untouched. -/
structure Producto where
  nombre : String
  precio : Int
  cantidad_stock : Int
  deriving Repr, DecidableEq

/-- `Venta` (models.py): sale date, receipt number (`none` embeds the
blank CharField), stored total, and void flag.  Client / payment-method
references play no role in any claim and are omitted. -/
structure Venta where
  fecha : Nat
  numero_comprobante : Option Nat
  importe_total : Int
  anulada : Bool
  deriving Repr, DecidableEq

/-- `DetalleVenta` (models.py): sale line.  `pk = none` means the row has
never been persisted (Python `self.pk is None`). -/
structure DetalleVenta where
  pk : Option Nat
  venta : Option Nat
  producto : Option Nat
  cantidad : Option Int
  precio_unitario : Int
  importe : Int
  hora : Nat
  deriving Repr, DecidableEq

/-- Direction of a stock movement (`TIPO_MOVIMIENTO` choices). -/
inductive Tipo where
  | entrada
  | salida
  deriving Repr, DecidableEq, BEq

/-- `MovimientoStock` (models.py): product reference, direction, quantity,
optional free-text receipt reference `comprobante`. -/
structure MovimientoStock where
  producto : Nat
  tipo : Tipo
  cantidad : Int
  comprobante : Option String
  deriving Repr, DecidableEq

/-- The persistent store: one table per entity of the recomputation chain. -/
structure DB where
  productos : List (Nat × Producto)
  ventas : List (Nat × Venta)
  detalles : List (Nat × DetalleVenta)
  movimientos : List MovimientoStock
  deriving Repr, DecidableEq

/-- On-hand quantity of a product in the store, if the row exists. -/
def stockOf (db : DB) (pid : Nat) : Option Int :=
  (getById db.productos pid).map Producto.cantidad_stock

/-- `producto.save()`: write the in-memory instance back to its row. -/
def Producto_save (db : DB) (pid : Nat) (p : Producto) : DB :=
  { db with productos := setById db.productos pid p }

/-- `MovimientoStock.save` (models.py 148-156): persist the movement
(`super().save()` appends the row), then — only when `tipo == 'entrada'` —
add the quantity to the in-memory product's `cantidad_stock`, and in every
case call `self.producto.save()`.  A dangling product reference raises in
the source; here the store is left unchanged in that unreachable branch. -/
def MovimientoStock_save (db : DB) (m : MovimientoStock) : DB :=
  match getById db.productos m.producto with
  | none => db
  | some prod =>
      let db1 := { db with movimientos := db.movimientos ++ [m] }
      let prod1 := if m.tipo = Tipo.entrada
                   then { prod with cantidad_stock := prod.cantidad_stock + m.cantidad }
                   else prod
      Producto_save db1 m.producto prod1

/-- Sum('importe') over `venta.detalleventa_set` (Django returns `None`
for an empty set and `calcular_importe_total` coerces it with `or 0`;
the sum over the empty list is 0 directly). -/
def importeTotalDe (db : DB) (vid : Nat) : Int :=
  ((db.detalles.filter (fun p => p.2.venta == some vid)).map (fun p => p.2.importe)).sum

/-- `Venta.calcular_importe_total` (models.py 317-321): aggregate the
`importe` of the sale's current lines (0 when none), store it in
`importe_total`, and persist via `self.save(update_fields=['importe_total'])`
— with `update_fields` only the total column is written, which is why the
embedding updates exactly that field of the stored row. -/
def calcular_importe_total (db : DB) (vid : Nat) : DB :=
  match getById db.ventas vid with
  | none => db
  | some v =>
      { db with ventas := setById db.ventas vid { v with importe_total := importeTotalDe db vid } }

/-- Does any persisted sale already use receipt number `n`
(`Venta.objects.filter(numero_comprobante=numero).exists()`)? -/
def numeroExiste (db : DB) (n : Nat) : Bool :=
  db.ventas.any (fun p => p.2.numero_comprobante == some n)

/-- `Venta.generar_numero_comprobante` (models.py 331-336): repeatedly
draw `random.randint(10**12, 10**13 - 1)` until the candidate collides
with no existing sale's number.  The random source is embedded as the
stream `draw` of successive candidates; the loop returns the first fresh
one, and `h` (some candidate is fresh) is exactly the termination of the
source's unbounded `while True`. -/
def generar_numero_comprobante (db : DB) (draw : Nat → Nat)
    (h : ∃ i, numeroExiste db (draw i) = false) : Nat :=
  draw (Nat.find h)

/-- `Venta.save` (models.py 323-329): when the receipt number is blank,
generate one first; then persist the instance. -/
def Venta_save (db : DB) (vid : Nat) (v : Venta) (draw : Nat → Nat)
    (h : ∃ i, numeroExiste db (draw i) = false) : DB × Venta :=
  let v1 := if v.numero_comprobante.isNone
            then { v with numero_comprobante := some (generar_numero_comprobante db draw h) }
            else v
  ({ db with ventas := setById db.ventas vid v1 }, v1)

/-- The movement label `f"Venta {instance.venta.numero_comprobante}"`
built in signals.py (a blank CharField renders as the bare prefix). -/
def etiquetaVenta : Option Nat → String
  | some n => "Venta " ++ toString n
  | none => "Venta "

/-- The dedup query of signals.py 32:
`MovimientoStock.objects.filter(comprobante=label, producto=producto).exists()`. -/
def movimientoExiste (db : DB) (label : String) (pid : Nat) : Bool :=
  db.movimientos.any (fun m => m.comprobante == some label && m.producto == pid)

/-- `actualizar_stock_post_venta` (signals.py 27-42), the post_save
receiver for `DetalleVenta`.  Guard: `created and instance.venta and not
instance.venta.anulada`.  Body: create an outbound `MovimientoStock`
labeled `"Venta {numero}"` unless one with the same label and product
already exists, then decrement the product's stock by the line quantity
and save the product (the decrement sits OUTSIDE the dedup guard in the
source).  A line with no product or no quantity, or dangling references,
raises in the source; those unreachable branches leave the store unchanged. -/
def actualizar_stock_post_venta (db : DB) (created : Bool) (inst : DetalleVenta) : DB :=
  match inst.venta, inst.producto, inst.cantidad with
  | some vid, some pid, some q =>
      match getById db.ventas vid, getById db.productos pid with
      | some v, some prod =>
          if created && !v.anulada then
            let label := etiquetaVenta v.numero_comprobante
            let db1 := if movimientoExiste db label pid then db
                       else MovimientoStock_save db ⟨pid, Tipo.salida, q, some label⟩
            Producto_save db1 pid { prod with cantidad_stock := prod.cantidad_stock - q }
          else db
      | _, _ => db
  | _, _, _ => db

/-- First stage of `DetalleVenta.save` (models.py 377-379): on a never
persisted line that references a product, freeze `precio_unitario` to the
product's current price. -/
def congelarPrecio (db : DB) (l : DetalleVenta) : DetalleVenta :=
  match l.pk, l.producto with
  | none, some pid =>
      match getById db.productos pid with
      | some prod => { l with precio_unitario := prod.precio }
      | none => l
  | _, _ => l

/-- Python truthiness of the numeric pair in
`if self.cantidad and self.precio_unitario:`: each must be present and
nonzero. -/
def importeComputable (l : DetalleVenta) : Bool :=
  (match l.cantidad with
   | some c => c != 0
   | none => false) && l.precio_unitario != 0

/-- Second stage of `DetalleVenta.save` (models.py 381-383): recompute
`importe = cantidad * precio_unitario` when both are truthy, else keep
the prior value. -/
def calcularImporte (l : DetalleVenta) : DetalleVenta :=
  if importeComputable l
  then { l with importe := (l.cantidad.getD 0) * l.precio_unitario }
  else l

/-- `DetalleVenta.save` (models.py 376-389) as the full pipeline the
source executes: freeze the price on first save, recompute the subtotal,
persist the row (`super().save()`, which assigns `freshId` as the primary
key on insert and fires the post_save signal with `created` = "was an
insert"), and finally `self.venta.calcular_importe_total()` when the line
references a sale.  Returns the store and the saved in-memory line. -/
def DetalleVenta_save (db : DB) (freshId : Nat) (l : DetalleVenta) : DB × DetalleVenta :=
  let l1 := congelarPrecio db l
  let l2 := calcularImporte l1
  let key := l2.pk.getD freshId
  let l3 := { l2 with pk := some key }
  let db1 := { db with detalles := setById db.detalles key l3 }
  let db2 := actualizar_stock_post_venta db1 l.pk.isNone l3
  let db3 := match l3.venta with
             | some vid => calcular_importe_total db2 vid
             | none => db2
  (db3, l3)

/-- Row deletion of a sale line as performed by the storage collaborator
(the admin inline `DetalleVentaInline` deletes lines through it).  The
source registers no delete hook — signals.py handles only post_save and
no model overrides `delete` — so no recomputation accompanies it. -/
def DetalleVenta_delete (db : DB) (lid : Nat) : DB :=
  { db with detalles := delById db.detalles lid }

/-- One iteration of the reversal loop of `venta_anular` (views.py
390-393): fetch the line's product from the store, add the line quantity
back, save the product.  Lines with no product or quantity, or a dangling
reference, raise in the source (unreachable; store unchanged here). -/
def revertirLinea (acc : DB) (d : DetalleVenta) : DB :=
  match d.producto, d.cantidad with
  | some pid, some q =>
      match getById acc.productos pid with
      | some prod => Producto_save acc pid { prod with cantidad_stock := prod.cantidad_stock + q }
      | none => acc
  | _, _ => acc

/-- `venta_anular` (views.py 384-397), POST branch: set `anulada = True`,
`venta.save()` (full save — the receipt-generation branch of `Venta.save`
runs, so the random stream and its termination witness are threaded), then
iterate `venta.detalleventa_set.all()` restoring each product's stock. -/
def venta_anular (db : DB) (vid : Nat) (draw : Nat → Nat)
    (h : ∃ i, numeroExiste db (draw i) = false) : DB :=
  match getById db.ventas vid with
  | none => db
  | some v =>
      let db1 := (Venta_save db vid { v with anulada := true } draw h).1
      (db1.detalles.filter (fun p => p.2.venta == some vid)).foldl
        (fun acc p => revertirLinea acc p.2) db1

/-- `DetalleVentaForm.clean_cantidad` (forms.py 140-157): reject a missing
or non-positive quantity with a field-level `ValidationError`, otherwise
return the quantity. -/
def clean_cantidad (cantidad : Option Int) : Except String Int :=
  match cantidad with
  | none => Except.error "La cantidad debe ser un número positivo."
  | some c =>
      if c ≤ 0 then Except.error "La cantidad debe ser un número positivo."
      else Except.ok c

/-- One iteration of the line-creation loop of `venta_agregar` (views.py
360-370): look the product up (404 when absent) and run
`DetalleVenta.objects.create(venta=..., producto=..., cantidad=int(...),
precio_unitario=producto.precio)` — i.e. `DetalleVenta.save` on a fresh
instance.  No quantity validation occurs on this path:
`DetalleVentaForm` is imported by views.py but never invoked. -/
def venta_agregar_linea (db : DB) (freshId vid pid : Nat) (cantidad : Int) : DB :=
  match getById db.productos pid with
  | none => db
  | some prod =>
      (DetalleVenta_save db freshId
        { pk := none, venta := some vid, producto := some pid,
          cantidad := some cantidad, precio_unitario := prod.precio,
          importe := 0, hora := 0 }).1

/-! ### Basic facts about the keyed store -/

theorem getById_setById_self {α : Type} (l : List (Nat × α)) (k : Nat) (v : α) :
    getById (setById l k v) k = some v := by
  induction l with
  | nil => simp [setById, getById]
  | cons hd t ih =>
      obtain ⟨k', v'⟩ := hd
      by_cases hk : k' = k
      · simp [setById, hk, getById]
      · simp [setById, hk, getById, ih]

theorem getById_setById_ne {α : Type} (l : List (Nat × α)) (k k' : Nat) (v : α)
    (h : k' ≠ k) : getById (setById l k v) k' = getById l k' := by
  have hkk : ¬(k = k') := fun hh => h hh.symm
  induction l with
  | nil => simp [setById, getById, hkk]
  | cons hd t ih =>
      obtain ⟨k0, v0⟩ := hd
      by_cases hk : k0 = k
      · subst hk
        simp [setById, getById, hkk]
      · simp [setById, hk, getById, ih]

theorem isSome_getById_setById {α : Type} (l : List (Nat × α)) (k k' : Nat) (v : α)
    (h : (getById l k').isSome) : (getById (setById l k v) k').isSome := by
  by_cases hk : k' = k
  · subst hk; simp [getById_setById_self]
  · rwa [getById_setById_ne l k k' v hk]

theorem getById_mem {α : Type} (l : List (Nat × α)) (k : Nat) (v : α)
    (h : getById l k = some v) : (k, v) ∈ l := by
  induction l with
  | nil => simp [getById] at h
  | cons hd t ih =>
      obtain ⟨k', v'⟩ := hd
      by_cases hk : k' = k
      · subst hk
        simp [getById] at h
        simp [h]
      · simp [getById, hk] at h
        exact List.mem_cons_of_mem _ (ih h)

/-! ### Field-preservation facts about the save pipeline stages -/

theorem calcularImporte_precio (l : DetalleVenta) :
    (calcularImporte l).precio_unitario = l.precio_unitario := by
  unfold calcularImporte; split <;> rfl

theorem calcularImporte_pk (l : DetalleVenta) : (calcularImporte l).pk = l.pk := by
  unfold calcularImporte; split <;> rfl

theorem calcularImporte_venta (l : DetalleVenta) : (calcularImporte l).venta = l.venta := by
  unfold calcularImporte; split <;> rfl

theorem calcularImporte_cantidad (l : DetalleVenta) :
    (calcularImporte l).cantidad = l.cantidad := by
  unfold calcularImporte; split <;> rfl

theorem congelarPrecio_of_pk_some (db : DB) (l : DetalleVenta) (k : Nat)
    (h : l.pk = some k) : congelarPrecio db l = l := by
  cases hp : l.producto <;> simp [congelarPrecio, h, hp]

theorem congelarPrecio_of_new (db : DB) (l : DetalleVenta) (pid : Nat) (prod : Producto)
    (hpk : l.pk = none) (hp : l.producto = some pid)
    (hget : getById db.productos pid = some prod) :
    congelarPrecio db l = { l with precio_unitario := prod.precio } := by
  simp [congelarPrecio, hpk, hp, hget]

theorem congelarPrecio_importe (db : DB) (l : DetalleVenta) :
    (congelarPrecio db l).importe = l.importe := by
  unfold congelarPrecio
  split
  · split <;> rfl
  · rfl

theorem congelarPrecio_cantidad (db : DB) (l : DetalleVenta) :
    (congelarPrecio db l).cantidad = l.cantidad := by
  unfold congelarPrecio
  split
  · split <;> rfl
  · rfl

theorem congelarPrecio_venta (db : DB) (l : DetalleVenta) :
    (congelarPrecio db l).venta = l.venta := by
  unfold congelarPrecio
  split
  · split <;> rfl
  · rfl

theorem congelarPrecio_pk (db : DB) (l : DetalleVenta) :
    (congelarPrecio db l).pk = l.pk := by
  unfold congelarPrecio
  split
  · split <;> rfl
  · rfl

theorem importeComputable_true (l : DetalleVenta) (c : Int)
    (hc : l.cantidad = some c) (h0 : c ≠ 0) (hp : l.precio_unitario ≠ 0) :
    importeComputable l = true := by
  simp [importeComputable, hc, h0, hp]

theorem calcularImporte_of_computable (l : DetalleVenta) (c : Int)
    (hc : l.cantidad = some c) (h : importeComputable l = true) :
    (calcularImporte l).importe = c * l.precio_unitario := by
  simp [calcularImporte, h, hc]

theorem calcularImporte_of_not (l : DetalleVenta) (h : importeComputable l = false) :
    (calcularImporte l).importe = l.importe := by
  simp [calcularImporte, h]

theorem MovimientoStock_save_ventas (db : DB) (m : MovimientoStock) :
    (MovimientoStock_save db m).ventas = db.ventas := by
  unfold MovimientoStock_save
  split <;> rfl

theorem MovimientoStock_save_detalles (db : DB) (m : MovimientoStock) :
    (MovimientoStock_save db m).detalles = db.detalles := by
  unfold MovimientoStock_save
  split <;> rfl

theorem MovimientoStock_save_movimientos (db : DB) (m : MovimientoStock)
    (h : (getById db.productos m.producto).isSome) :
    (MovimientoStock_save db m).movimientos = db.movimientos ++ [m] := by
  obtain ⟨prod, hp⟩ := Option.isSome_iff_exists.mp h
  simp [MovimientoStock_save, hp, Producto_save]

theorem stockOf_Producto_save_self (db : DB) (pid : Nat) (p : Producto) :
    stockOf (Producto_save db pid p) pid = some p.cantidad_stock := by
  simp [stockOf, Producto_save, getById_setById_self]

theorem actualizar_preserva_ventas (db : DB) (created : Bool) (inst : DetalleVenta) :
    (actualizar_stock_post_venta db created inst).ventas = db.ventas := by
  unfold actualizar_stock_post_venta
  repeat' split
  all_goals simp [Producto_save, MovimientoStock_save_ventas]
  all_goals repeat' split
  all_goals simp [MovimientoStock_save_ventas]

theorem actualizar_preserva_detalles (db : DB) (created : Bool) (inst : DetalleVenta) :
    (actualizar_stock_post_venta db created inst).detalles = db.detalles := by
  unfold actualizar_stock_post_venta
  repeat' split
  all_goals simp [Producto_save, MovimientoStock_save_detalles]
  all_goals repeat' split
  all_goals simp [MovimientoStock_save_detalles]

theorem calcular_preserva_detalles (db : DB) (vid : Nat) :
    (calcular_importe_total db vid).detalles = db.detalles := by
  unfold calcular_importe_total
  split <;> rfl

theorem calcular_preserva_productos (db : DB) (vid : Nat) :
    (calcular_importe_total db vid).productos = db.productos := by
  unfold calcular_importe_total
  split <;> rfl

theorem calcular_preserva_movimientos (db : DB) (vid : Nat) :
    (calcular_importe_total db vid).movimientos = db.movimientos := by
  unfold calcular_importe_total
  split <;> rfl

theorem importeTotalDe_eq_of_detalles (db db' : DB) (vid : Nat)
    (h : db.detalles = db'.detalles) : importeTotalDe db vid = importeTotalDe db' vid := by
  unfold importeTotalDe
  rw [h]

/-- After the tail of the line-save pipeline (signal, then recompute of
the referenced sale), the stored total of that sale equals the sum of the
stored lines' subtotals. -/
theorem save_total_sync (db0 : DB) (vid : Nat) (v : Venta) (created : Bool) (l3 : DetalleVenta)
    (hv : getById db0.ventas vid = some v) :
    ∃ v', getById (calcular_importe_total
            (actualizar_stock_post_venta db0 created l3) vid).ventas vid = some v' ∧
      v'.importe_total = importeTotalDe
        (calcular_importe_total (actualizar_stock_post_venta db0 created l3) vid) vid := by
  have hv2 : getById (actualizar_stock_post_venta db0 created l3).ventas vid = some v := by
    rw [actualizar_preserva_ventas]; exact hv
  refine ⟨{ v with importe_total :=
      importeTotalDe (actualizar_stock_post_venta db0 created l3) vid }, ?_, ?_⟩
  · simp [calcular_importe_total, hv2, getById_setById_self]
  · exact (importeTotalDe_eq_of_detalles _ _ vid (calcular_preserva_detalles _ vid)).symm

/-- Total quantity the reversal loop gives back to product `pid`: the sum
of the quantities of the given lines that reference `pid` (a missing
quantity contributes 0, matching the loop's skip). -/
def cantidadRevertida (lines : List (Nat × DetalleVenta)) (pid : Nat) : Int :=
  ((lines.filter (fun p => p.2.producto == some pid)).map (fun p => p.2.cantidad.getD 0)).sum

theorem cantidadRevertida_nil (pid : Nat) : cantidadRevertida [] pid = 0 := rfl

theorem cantidadRevertida_cons (p : Nat × DetalleVenta) (t : List (Nat × DetalleVenta))
    (pid : Nat) :
    cantidadRevertida (p :: t) pid =
      (if p.2.producto = some pid then p.2.cantidad.getD 0 else 0) + cantidadRevertida t pid := by
  by_cases h : p.2.producto = some pid <;>
    simp [cantidadRevertida, List.filter_cons, h]

theorem revertirLinea_ventas (acc : DB) (d : DetalleVenta) :
    (revertirLinea acc d).ventas = acc.ventas := by
  unfold revertirLinea
  repeat' split
  all_goals rfl

theorem revertirLinea_detalles (acc : DB) (d : DetalleVenta) :
    (revertirLinea acc d).detalles = acc.detalles := by
  unfold revertirLinea
  repeat' split
  all_goals rfl

theorem revertirLinea_movimientos (acc : DB) (d : DetalleVenta) :
    (revertirLinea acc d).movimientos = acc.movimientos := by
  unfold revertirLinea
  repeat' split
  all_goals rfl

theorem revertirLinea_isSome (acc : DB) (d : DetalleVenta) (k : Nat)
    (h : (getById acc.productos k).isSome) :
    (getById (revertirLinea acc d).productos k).isSome := by
  rcases hp : d.producto with _ | pid
  · simpa [revertirLinea, hp] using h
  · rcases hc : d.cantidad with _ | q
    · simpa [revertirLinea, hp, hc] using h
    · rcases hg : getById acc.productos pid with _ | prod
      · simpa [revertirLinea, hp, hc, hg] using h
      · simp only [revertirLinea, hp, hc, hg, Producto_save]
        exact isSome_getById_setById _ _ _ _ h

theorem fold_revertir_ventas (lines : List (Nat × DetalleVenta)) (acc : DB) :
    (lines.foldl (fun a p => revertirLinea a p.2) acc).ventas = acc.ventas := by
  induction lines generalizing acc with
  | nil => rfl
  | cons p t ih => rw [List.foldl_cons, ih, revertirLinea_ventas]

theorem fold_revertir_detalles (lines : List (Nat × DetalleVenta)) (acc : DB) :
    (lines.foldl (fun a p => revertirLinea a p.2) acc).detalles = acc.detalles := by
  induction lines generalizing acc with
  | nil => rfl
  | cons p t ih => rw [List.foldl_cons, ih, revertirLinea_detalles]

theorem fold_revertir_movimientos (lines : List (Nat × DetalleVenta)) (acc : DB) :
    (lines.foldl (fun a p => revertirLinea a p.2) acc).movimientos = acc.movimientos := by
  induction lines generalizing acc with
  | nil => rfl
  | cons p t ih => rw [List.foldl_cons, ih, revertirLinea_movimientos]

/-- The reversal loop, started on any store, leaves each existing product
with its descriptive fields and price intact and its stock increased by
exactly the summed quantities of the processed lines that reference it —
provided every product referenced by a processed line exists. -/
theorem fold_revertir_stock (lines : List (Nat × DetalleVenta)) (acc : DB) (pid : Nat)
    (prod : Producto)
    (hget : getById acc.productos pid = some prod)
    (hwf : ∀ p ∈ lines, ∀ pid', p.2.producto = some pid' →
      (getById acc.productos pid').isSome) :
    ∃ prod', getById ((lines.foldl (fun a p => revertirLinea a p.2) acc)).productos pid =
        some prod' ∧
      prod'.nombre = prod.nombre ∧ prod'.precio = prod.precio ∧
      prod'.cantidad_stock = prod.cantidad_stock + cantidadRevertida lines pid := by
  induction lines generalizing acc prod with
  | nil => exact ⟨prod, hget, rfl, rfl, by simp [cantidadRevertida_nil]⟩
  | cons p t ih =>
      rw [List.foldl_cons, cantidadRevertida_cons]
      have hwft : ∀ p' ∈ t, ∀ pid', p'.2.producto = some pid' →
          (getById (revertirLinea acc p.2).productos pid').isSome := by
        intro p' hp' pid' hpp
        exact revertirLinea_isSome _ _ _ (hwf p' (List.mem_cons_of_mem _ hp') pid' hpp)
      rcases hp : p.2.producto with _ | pid'
      · have hacc : revertirLinea acc p.2 = acc := by simp [revertirLinea, hp]
        rw [hacc] at hwft ⊢
        obtain ⟨prod', h1, h2, h3, h4⟩ := ih acc prod hget hwft
        exact ⟨prod', h1, h2, h3, by rw [h4]; simp [hp]⟩
      · rcases hc : p.2.cantidad with _ | q
        · have hacc : revertirLinea acc p.2 = acc := by simp [revertirLinea, hp, hc]
          rw [hacc] at hwft ⊢
          obtain ⟨prod', h1, h2, h3, h4⟩ := ih acc prod hget hwft
          refine ⟨prod', h1, h2, h3, ?_⟩
          rw [h4]
          by_cases hpe : pid' = pid <;> simp [hpe, hp, hc]
        · have hsome := hwf p (List.mem_cons_self p t) pid' hp
          obtain ⟨prodp, hgetp⟩ := Option.isSome_iff_exists.mp hsome
          have hacc : revertirLinea acc p.2 =
              Producto_save acc pid'
                { prodp with cantidad_stock := prodp.cantidad_stock + q } := by
            simp [revertirLinea, hp, hc, hgetp]
          rw [hacc] at hwft ⊢
          by_cases hpe : pid' = pid
          · subst hpe
            have heq : prodp = prod := by
              rw [hget] at hgetp
              exact (Option.some_inj.mp hgetp).symm
            subst heq
            have hget' : getById (Producto_save acc pid'
                { prodp with cantidad_stock := prodp.cantidad_stock + q }).productos pid' =
                some { prodp with cantidad_stock := prodp.cantidad_stock + q } := by
              simp [Producto_save, getById_setById_self]
            obtain ⟨prod', h1, h2, h3, h4⟩ := ih _ _ hget' hwft
            refine ⟨prod', h1, h2, h3, ?_⟩
            rw [h4]
            simp [hp, hc]
            ring
          · have hget' : getById (Producto_save acc pid'
                { prodp with cantidad_stock := prodp.cantidad_stock + q }).productos pid =
                some prod := by
              simp only [Producto_save]
              rw [getById_setById_ne _ _ _ _ (fun hh => hpe hh.symm)]
              exact hget
            obtain ⟨prod', h1, h2, h3, h4⟩ := ih _ _ hget' hwft
            refine ⟨prod', h1, h2, h3, ?_⟩
            rw [h4]
            have : ¬(pid' = pid) := hpe
            simp [hp, this]

/-- Full characterisation of `venta_anular` on a sale that exists and
carries a receipt number, when every product referenced by one of its
lines exists: the sale keeps every field but the void flag, no other
table row changes except the referenced products, and each product's
stock grows by the summed quantities of the sale's lines. -/
theorem venta_anular_spec (db : DB) (vid : Nat) (v : Venta) (n : Nat) (draw : Nat → Nat)
    (h : ∃ i, numeroExiste db (draw i) = false)
    (hv : getById db.ventas vid = some v)
    (hn : v.numero_comprobante = some n)
    (hwf : ∀ p ∈ db.detalles.filter (fun p => p.2.venta == some vid), ∀ pid,
      p.2.producto = some pid → (getById db.productos pid).isSome) :
    getById (venta_anular db vid draw h).ventas vid = some { v with anulada := true } ∧
    (∀ vid', vid' ≠ vid →
      getById (venta_anular db vid draw h).ventas vid' = getById db.ventas vid') ∧
    (venta_anular db vid draw h).detalles = db.detalles ∧
    (venta_anular db vid draw h).movimientos = db.movimientos ∧
    (∀ pid prod, getById db.productos pid = some prod →
      ∃ prod', getById (venta_anular db vid draw h).productos pid = some prod' ∧
        prod'.nombre = prod.nombre ∧ prod'.precio = prod.precio ∧
        prod'.cantidad_stock = prod.cantidad_stock +
          cantidadRevertida (db.detalles.filter (fun p => p.2.venta == some vid)) pid) := by
  have hun : venta_anular db vid draw h =
      (db.detalles.filter (fun p => p.2.venta == some vid)).foldl
        (fun acc p => revertirLinea acc p.2)
        { db with ventas := setById db.ventas vid { v with anulada := true } } := by
    simp [venta_anular, hv, Venta_save, hn]
  refine ⟨?_, ?_, ?_, ?_, ?_⟩
  · rw [hun, fold_revertir_ventas]
    exact getById_setById_self db.ventas vid _
  · intro vid' hne
    rw [hun, fold_revertir_ventas]
    exact getById_setById_ne db.ventas vid vid' _ hne
  · rw [hun, fold_revertir_detalles]
  · rw [hun, fold_revertir_movimientos]
  · intro pid prod hget
    rw [hun]
    exact fold_revertir_stock _ _ pid prod hget hwf

/-- `actualizar_stock_post_venta` on a creation event for a well-formed
line on a non-void sale: dedup-guarded movement creation, then the stock
decrement (which the guard does NOT protect). -/
theorem actualizar_spec (db : DB) (inst : DetalleVenta) (vid pid : Nat) (q : Int)
    (v : Venta) (prod : Producto)
    (hv : inst.venta = some vid) (hp : inst.producto = some pid) (hc : inst.cantidad = some q)
    (hgv : getById db.ventas vid = some v) (hgp : getById db.productos pid = some prod)
    (han : v.anulada = false) :
    actualizar_stock_post_venta db true inst =
      Producto_save
        (if movimientoExiste db (etiquetaVenta v.numero_comprobante) pid then db
         else MovimientoStock_save db
           ⟨pid, Tipo.salida, q, some (etiquetaVenta v.numero_comprobante)⟩)
        pid { prod with cantidad_stock := prod.cantidad_stock - q } := by
  simp [actualizar_stock_post_venta, hv, hp, hc, hgv, hgp, han]

theorem movimientoExiste_Producto_save (db : DB) (k : Nat) (p : Producto)
    (label : String) (pid : Nat) :
    movimientoExiste (Producto_save db k p) label pid = movimientoExiste db label pid := rfl

theorem movimientoExiste_MovimientoStock_save (db : DB) (m : MovimientoStock)
    (label : String) (pid : Nat)
    (hm : m.comprobante = some label) (hpidm : m.producto = pid)
    (hs : (getById db.productos m.producto).isSome) :
    movimientoExiste (MovimientoStock_save db m) label pid = true := by
  unfold movimientoExiste
  rw [MovimientoStock_save_movimientos db m hs]
  simp [hm, hpidm]

/-- Number of stock movements carrying a given receipt label for a given
product (the multiplicity behind the dedup query of signals.py 32). -/
def countMov (mov : List MovimientoStock) (label : String) (pid : Nat) : Nat :=
  (mov.filter (fun m => m.comprobante == some label && m.producto == pid)).length

theorem countMov_eq_zero (db : DB) (label : String) (pid : Nat)
    (h : movimientoExiste db label pid = false) :
    countMov db.movimientos label pid = 0 := by
  unfold movimientoExiste at h
  unfold countMov
  rw [List.length_eq_zero, List.filter_eq_nil_iff]
  intro a ha
  rw [List.any_eq_false] at h
  exact h a ha

theorem countMov_append_single (l : List MovimientoStock) (m : MovimientoStock)
    (label : String) (pid : Nat) :
    countMov (l ++ [m]) label pid =
      countMov l label pid +
        (if (m.comprobante == some label && m.producto == pid) = true then 1 else 0) := by
  unfold countMov
  rw [List.filter_append, List.length_append]
  congr 1
  by_cases hm : (m.comprobante == some label && m.producto == pid) = true <;> simp [hm]

/-! ### Claim theorems -/

/-- C1: a sale line's unit price is frozen exactly once.  On the first
save of a line that references an existing product, the saved line's
`precio_unitario` equals that product's price in the store at that
instant; on any save of an already-persisted line `precio_unitario` is
returned unchanged (the save pipeline never rewrites it); and re-saving a
product touches no stored sale line, so a later price change cannot alter
an already-sold line. -/
theorem C1_precio_congelado (db : DB) (fid : Nat) (l : DetalleVenta) :
    (∀ pid prod, l.pk = none → l.producto = some pid →
      getById db.productos pid = some prod →
      (DetalleVenta_save db fid l).2.precio_unitario = prod.precio) ∧
    (∀ k, l.pk = some k →
      (DetalleVenta_save db fid l).2.precio_unitario = l.precio_unitario) ∧
    (∀ pid p, (Producto_save db pid p).detalles = db.detalles) := by
  refine ⟨?_, ?_, ?_⟩
  · intro pid prod hpk hp hget
    show (calcularImporte (congelarPrecio db l)).precio_unitario = prod.precio
    rw [calcularImporte_precio, congelarPrecio_of_new db l pid prod hpk hp hget]
  · intro k hk
    show (calcularImporte (congelarPrecio db l)).precio_unitario = l.precio_unitario
    rw [calcularImporte_precio, congelarPrecio_of_pk_some db l k hk]
  · intro pid p
    rfl

/-- Witness for C1 on the golden scenario of spec §8: product 1
("Martillo", price 100, stock 10); a fresh line for 3 units freezes 100;
a later save of the same line (price meanwhile 150) keeps 100; and
re-saving the product leaves the stored lines untouched. -/
theorem C1_precio_congelado_witness :
    (DetalleVenta_save ⟨[(1, ⟨"Martillo", 100, 10⟩)], [(7, ⟨0, some 123, 0, false⟩)], [], []⟩
      5 ⟨none, some 7, some 1, some 3, 0, 0, 0⟩).2.precio_unitario = 100 ∧
    (DetalleVenta_save ⟨[(1, ⟨"Martillo", 150, 10⟩)], [(7, ⟨0, some 123, 300, false⟩)], [], []⟩
      9 ⟨some 5, some 7, some 1, some 3, 100, 300, 0⟩).2.precio_unitario = 100 ∧
    (Producto_save ⟨[(1, ⟨"Martillo", 100, 10⟩)], [], [(5, ⟨some 5, some 7, some 1, some 3, 100, 300, 0⟩)], []⟩
      1 ⟨"Martillo", 150, 10⟩).detalles = [(5, ⟨some 5, some 7, some 1, some 3, 100, 300, 0⟩)] := by
  refine ⟨?_, ?_, ?_⟩
  · exact (C1_precio_congelado _ 5 _).1 1 ⟨"Martillo", 100, 10⟩ rfl rfl rfl
  · exact (C1_precio_congelado _ 9 _).2.1 5 rfl
  · exact ((C1_precio_congelado ⟨[(1, ⟨"Martillo", 100, 10⟩)], [], [(5, ⟨some 5, some 7, some 1, some 3, 100, 300, 0⟩)], []⟩ 0 ⟨none, none, none, none, 0, 0, 0⟩).2.2 1 ⟨"Martillo", 150, 10⟩)

/-- C6 counterexample: quantity and unit price can both be present while
the subtotal is NOT recomputed.  A persisted line with `cantidad = 3`,
`precio_unitario = 0` (frozen from a zero-priced product) and prior
`importe = 7` is saved again: the source's truthiness guard
`if self.cantidad and self.precio_unitario` treats the zero price as
falsy, so the saved line keeps `importe = 7`, not `3 * 0 = 0` as the
claim requires. -/
theorem C6_counterexample :
    (DetalleVenta_save
      ⟨[(1, ⟨"Martillo", 0, 10⟩)], [(7, ⟨0, some 123, 7, false⟩)],
       [(5, ⟨some 5, some 7, some 1, some 3, 0, 7, 0⟩)], []⟩
      9 ⟨some 5, some 7, some 1, some 3, 0, 7, 0⟩).2.importe = 7 ∧ (7 : Int) ≠ 3 * 0 := by
  exact ⟨rfl, by decide⟩

/-- C6 (amended): on every save of a sale line, the subtotal is
recomputed as `cantidad * precio_unitario` (with the possibly just-frozen
unit price) whenever both are present AND nonzero; when the quantity is
missing or zero, or the unit price is zero, the subtotal keeps its prior
value — in no case is an error raised (the operation stays total). -/
theorem C6_importe_amended (db : DB) (fid : Nat) (l : DetalleVenta) :
    (∀ c, l.cantidad = some c → c ≠ 0 →
      (congelarPrecio db l).precio_unitario ≠ 0 →
      (DetalleVenta_save db fid l).2.importe = c * (congelarPrecio db l).precio_unitario) ∧
    (importeComputable (congelarPrecio db l) = false →
      (DetalleVenta_save db fid l).2.importe = l.importe) := by
  constructor
  · intro c hc h0 hp
    show (calcularImporte (congelarPrecio db l)).importe = _
    have hc' : (congelarPrecio db l).cantidad = some c := by
      rw [congelarPrecio_cantidad]; exact hc
    exact calcularImporte_of_computable _ c hc'
      (importeComputable_true _ c hc' h0 hp)
  · intro hnot
    show (calcularImporte (congelarPrecio db l)).importe = l.importe
    rw [calcularImporte_of_not _ hnot, congelarPrecio_importe]

/-- Witness for C6 (amended): on the §8 scenario (price 100, qty 3) the
saved subtotal is `3 * 100 = 300`; on the zero-price re-save of the
counterexample store the subtotal keeps its prior value 7. -/
theorem C6_importe_amended_witness :
    (DetalleVenta_save ⟨[(1, ⟨"Martillo", 100, 10⟩)], [(7, ⟨0, some 123, 0, false⟩)], [], []⟩
      5 ⟨none, some 7, some 1, some 3, 0, 0, 0⟩).2.importe = 300 ∧
    (DetalleVenta_save
      ⟨[(1, ⟨"Martillo", 0, 10⟩)], [(7, ⟨0, some 123, 7, false⟩)],
       [(5, ⟨some 5, some 7, some 1, some 3, 0, 7, 0⟩)], []⟩
      9 ⟨some 5, some 7, some 1, some 3, 0, 7, 0⟩).2.importe = 7 := by
  constructor
  · have h := (C6_importe_amended
      ⟨[(1, ⟨"Martillo", 100, 10⟩)], [(7, ⟨0, some 123, 0, false⟩)], [], []⟩
      5 ⟨none, some 7, some 1, some 3, 0, 0, 0⟩).1 3 rfl (by decide) (by decide)
    simpa using h
  · exact (C6_importe_amended
      ⟨[(1, ⟨"Martillo", 0, 10⟩)], [(7, ⟨0, some 123, 7, false⟩)],
       [(5, ⟨some 5, some 7, some 1, some 3, 0, 7, 0⟩)], []⟩
      9 ⟨some 5, some 7, some 1, some 3, 0, 7, 0⟩).2 (by decide)

/-- C7: saving a stock movement whose product exists always appends the
movement row; the product's on-hand quantity gains the movement quantity
exactly when the direction is inbound (`entrada`) and gains 0 when it is
outbound (`salida`); no other product and no sale or line is touched, so
an outbound movement is recorded as data only. -/
theorem C7_movimiento (db : DB) (m : MovimientoStock) (prod : Producto)
    (hget : getById db.productos m.producto = some prod) :
    (MovimientoStock_save db m).movimientos = db.movimientos ++ [m] ∧
    stockOf (MovimientoStock_save db m) m.producto =
      some (prod.cantidad_stock + if m.tipo = Tipo.entrada then m.cantidad else 0) ∧
    (∀ pid, pid ≠ m.producto →
      getById (MovimientoStock_save db m).productos pid = getById db.productos pid) ∧
    (MovimientoStock_save db m).ventas = db.ventas ∧
    (MovimientoStock_save db m).detalles = db.detalles := by
  refine ⟨MovimientoStock_save_movimientos db m (by simp [hget]), ?_, ?_,
    MovimientoStock_save_ventas db m, MovimientoStock_save_detalles db m⟩
  · by_cases ht : m.tipo = Tipo.entrada <;>
      simp [MovimientoStock_save, hget, ht, stockOf, Producto_save, getById_setById_self]
  · intro pid hpid
    by_cases ht : m.tipo = Tipo.entrada <;>
      simp [MovimientoStock_save, hget, ht, Producto_save, getById_setById_ne _ _ _ _ hpid]

/-- Witness for C7: an inbound movement of 5 lifts the stock of product 1
from 10 to 15 and appends the row; an outbound one leaves the stock at 10
while still being recorded. -/
theorem C7_movimiento_witness :
    (MovimientoStock_save ⟨[(1, ⟨"Martillo", 100, 10⟩)], [], [], []⟩
      ⟨1, Tipo.entrada, 5, some "compra"⟩).movimientos = [⟨1, Tipo.entrada, 5, some "compra"⟩] ∧
    stockOf (MovimientoStock_save ⟨[(1, ⟨"Martillo", 100, 10⟩)], [], [], []⟩
      ⟨1, Tipo.entrada, 5, some "compra"⟩) 1 = some 15 ∧
    stockOf (MovimientoStock_save ⟨[(1, ⟨"Martillo", 100, 10⟩)], [], [], []⟩
      ⟨1, Tipo.salida, 5, some "ajuste"⟩) 1 = some 10 := by
  have h1 := C7_movimiento ⟨[(1, ⟨"Martillo", 100, 10⟩)], [], [], []⟩
    ⟨1, Tipo.entrada, 5, some "compra"⟩ ⟨"Martillo", 100, 10⟩ rfl
  have h2 := C7_movimiento ⟨[(1, ⟨"Martillo", 100, 10⟩)], [], [], []⟩
    ⟨1, Tipo.salida, 5, some "ajuste"⟩ ⟨"Martillo", 100, 10⟩ rfl
  exact ⟨by simpa using h1.1, by simpa using h1.2.1, by simpa using h2.2.1⟩

/-- C5: saving a sale with a blank receipt number assigns one taken from
the candidate stream of 13-digit draws (the embedding of
`random.randint(10**12, 10**13 - 1)`): the assigned number lies in the
13-digit range, collides with no persisted sale's number, and is exactly
the first fresh candidate — every earlier draw was rejected because it
already existed (the retry-on-collision loop).  Saving a sale that
already carries a number leaves it unchanged. -/
theorem C5_numero_comprobante (db : DB) (vid : Nat) (v : Venta) (draw : Nat → Nat)
    (hrange : ∀ i, 10 ^ 12 ≤ draw i ∧ draw i < 10 ^ 13)
    (h : ∃ i, numeroExiste db (draw i) = false) :
    (v.numero_comprobante = none →
      ∃ n, (Venta_save db vid v draw h).2.numero_comprobante = some n ∧
        10 ^ 12 ≤ n ∧ n < 10 ^ 13 ∧
        numeroExiste db n = false ∧
        (∀ vid' v', getById db.ventas vid' = some v' → v'.numero_comprobante ≠ some n) ∧
        n = draw (Nat.find h) ∧
        (∀ j, j < Nat.find h → numeroExiste db (draw j) = true)) ∧
    (∀ m, v.numero_comprobante = some m →
      (Venta_save db vid v draw h).2 = v ∧
      getById (Venta_save db vid v draw h).1.ventas vid = some v) := by
  constructor
  · intro hnone
    refine ⟨draw (Nat.find h), ?_, (hrange _).1, (hrange _).2, Nat.find_spec h, ?_, rfl, ?_⟩
    · simp [Venta_save, hnone, generar_numero_comprobante]
    · intro vid' v' hget hnum
      have hmem := getById_mem db.ventas vid' v' hget
      have : numeroExiste db (draw (Nat.find h)) = true := by
        unfold numeroExiste
        rw [List.any_eq_true]
        exact ⟨(vid', v'), hmem, by simp [hnum]⟩
      rw [Nat.find_spec h] at this
      exact Bool.false_ne_true this
    · intro j hj
      have hmin := Nat.find_min h hj
      revert hmin
      cases numeroExiste db (draw j) <;> simp
  · intro m hm
    have hsave : (Venta_save db vid v draw h).2 = v := by
      simp [Venta_save, hm]
    refine ⟨hsave, ?_⟩
    show getById (setById db.ventas vid (Venta_save db vid v draw h).2) vid = some v
    rw [hsave, getById_setById_self]

/-- Witness for C5: the store holds one sale with number 5000000000000;
the constant stream draws 6000000000000, which is fresh, 13 digits long,
and becomes the number of a newly saved blank sale; a sale saved with
number 123 keeps it. -/
theorem C5_numero_comprobante_witness :
    (Venta_save ⟨[], [(8, ⟨0, some 5000000000000, 0, false⟩)], [], []⟩ 9
      ⟨0, none, 0, false⟩ (fun _ => 6000000000000) ⟨0, rfl⟩).2.numero_comprobante =
        some 6000000000000 ∧
    (Venta_save ⟨[], [(8, ⟨0, some 5000000000000, 0, false⟩)], [], []⟩ 8
      ⟨0, some 123, 0, false⟩ (fun _ => 6000000000000) ⟨0, rfl⟩).2 = ⟨0, some 123, 0, false⟩ := by
  have hc := C5_numero_comprobante ⟨[], [(8, ⟨0, some 5000000000000, 0, false⟩)], [], []⟩ 9
    ⟨0, none, 0, false⟩ (fun _ => 6000000000000) (fun _ => by norm_num) ⟨0, rfl⟩
  have hk := C5_numero_comprobante ⟨[], [(8, ⟨0, some 5000000000000, 0, false⟩)], [], []⟩ 8
    ⟨0, some 123, 0, false⟩ (fun _ => 6000000000000) (fun _ => by norm_num) ⟨0, rfl⟩
  constructor
  · obtain ⟨n, hn, _, _, _, _, hfind, _⟩ := hc.1 rfl
    rw [hn, hfind]
  · exact (hk.2 123 rfl).1

/-- C2 counterexample: the stored-total/sum equality does NOT survive a
line removal.  Store: sale 7 with stored total 300 and its single line 5
(subtotal 300).  Deleting the line through the storage collaborator (as
the admin inline does) triggers no recomputation — signals.py registers
only a post_save hook and no model overrides delete — so the stored total
stays 300 while the sum over the (now empty) line set is 0. -/
theorem C2_counterexample :
    (getById (DetalleVenta_delete
      ⟨[(1, ⟨"Martillo", 100, 7⟩)], [(7, ⟨0, some 123, 300, false⟩)],
       [(5, ⟨some 5, some 7, some 1, some 3, 100, 300, 0⟩)], []⟩ 5).ventas 7).map
        Venta.importe_total = some 300 ∧
    importeTotalDe (DetalleVenta_delete
      ⟨[(1, ⟨"Martillo", 100, 7⟩)], [(7, ⟨0, some 123, 300, false⟩)],
       [(5, ⟨some 5, some 7, some 1, some 3, 100, 300, 0⟩)], []⟩ 5) 7 = 0 ∧
    (300 : Int) ≠ 0 := by
  exact ⟨rfl, rfl, by decide⟩

/-- C2 (amended): `calcular_importe_total` sets the sale's stored total
to the sum of the subtotals of its currently-existing lines (0 when it
has none) and persists only the total field — every other sale, and the
lines, products and movements tables, are untouched; and the equality
between stored total and sum of line subtotals holds after any line of
the sale is added or updated (every line save ends by recomputing the
owning sale's total).  After a line is removed nothing recomputes, so the
stored total can be stale until the next recompute (see the
counterexample). -/
theorem C2_total_amended (db : DB) (vid : Nat) (v : Venta)
    (hv : getById db.ventas vid = some v) :
    (getById (calcular_importe_total db vid).ventas vid =
       some { v with importe_total := importeTotalDe db vid } ∧
     (∀ vid', vid' ≠ vid →
       getById (calcular_importe_total db vid).ventas vid' = getById db.ventas vid') ∧
     (calcular_importe_total db vid).detalles = db.detalles ∧
     (calcular_importe_total db vid).productos = db.productos ∧
     (calcular_importe_total db vid).movimientos = db.movimientos) ∧
    (∀ fid l, l.venta = some vid →
      ∃ v', getById (DetalleVenta_save db fid l).1.ventas vid = some v' ∧
        v'.importe_total = importeTotalDe (DetalleVenta_save db fid l).1 vid) := by
  constructor
  · refine ⟨?_, ?_, calcular_preserva_detalles db vid, calcular_preserva_productos db vid,
      calcular_preserva_movimientos db vid⟩
    · simp [calcular_importe_total, hv, getById_setById_self]
    · intro vid' hne
      simp [calcular_importe_total, hv, getById_setById_ne _ _ _ _ hne]
  · intro fid l hlv
    have hl3venta : ({ calcularImporte (congelarPrecio db l) with
        pk := some ((calcularImporte (congelarPrecio db l)).pk.getD fid) } : DetalleVenta).venta =
          some vid := by
      show (calcularImporte (congelarPrecio db l)).venta = some vid
      rw [calcularImporte_venta, congelarPrecio_venta, hlv]
    simp only [DetalleVenta_save]
    rw [hl3venta]
    exact save_total_sync _ vid v _ _ hv

/-- Witness for C2 (amended), on the §8 scenario: recomputing sale 7
(single stored line with subtotal 300) stores total 300 touching nothing
else; and saving a fresh line of 3 units at price 100 into an empty sale
leaves the stored total equal to the sum of current subtotals, 300. -/
theorem C2_total_amended_witness :
    (getById (calcular_importe_total
      ⟨[(1, ⟨"Martillo", 100, 7⟩)], [(7, ⟨0, some 123, 0, false⟩)],
       [(5, ⟨some 5, some 7, some 1, some 3, 100, 300, 0⟩)], []⟩ 7).ventas 7 =
      some ⟨0, some 123, 300, false⟩) ∧
    (∃ v', getById (DetalleVenta_save
        ⟨[(1, ⟨"Martillo", 100, 10⟩)], [(7, ⟨0, some 123, 0, false⟩)], [], []⟩
        5 ⟨none, some 7, some 1, some 3, 0, 0, 0⟩).1.ventas 7 = some v' ∧
      v'.importe_total = importeTotalDe (DetalleVenta_save
        ⟨[(1, ⟨"Martillo", 100, 10⟩)], [(7, ⟨0, some 123, 0, false⟩)], [], []⟩
        5 ⟨none, some 7, some 1, some 3, 0, 0, 0⟩).1 7) := by
  constructor
  · have h := (C2_total_amended
      ⟨[(1, ⟨"Martillo", 100, 7⟩)], [(7, ⟨0, some 123, 0, false⟩)],
       [(5, ⟨some 5, some 7, some 1, some 3, 100, 300, 0⟩)], []⟩ 7
      ⟨0, some 123, 0, false⟩ rfl).1.1
    simpa using h
  · exact (C2_total_amended
      ⟨[(1, ⟨"Martillo", 100, 10⟩)], [(7, ⟨0, some 123, 0, false⟩)], [], []⟩ 7
      ⟨0, some 123, 0, false⟩ rfl).2 5 ⟨none, some 7, some 1, some 3, 0, 0, 0⟩ rfl

/-- C4: voiding an existing (numbered) sale whose line products all exist
sets its void flag `anulada` to true, deletes neither the sale nor any
line (the whole lines table survives), and gives every product back the
summed quantities of the sale's lines referencing it, persisting the
product. -/
theorem C4_anular (db : DB) (vid : Nat) (v : Venta) (n : Nat) (draw : Nat → Nat)
    (h : ∃ i, numeroExiste db (draw i) = false)
    (hv : getById db.ventas vid = some v)
    (hn : v.numero_comprobante = some n)
    (hwf : ∀ p ∈ db.detalles.filter (fun p => p.2.venta == some vid), ∀ pid,
      p.2.producto = some pid → (getById db.productos pid).isSome) :
    getById (venta_anular db vid draw h).ventas vid = some { v with anulada := true } ∧
    (venta_anular db vid draw h).detalles = db.detalles ∧
    (∀ pid prod, getById db.productos pid = some prod →
      ∃ prod', getById (venta_anular db vid draw h).productos pid = some prod' ∧
        prod'.cantidad_stock = prod.cantidad_stock +
          cantidadRevertida (db.detalles.filter (fun p => p.2.venta == some vid)) pid) := by
  obtain ⟨h1, _, h3, _, h5⟩ := venta_anular_spec db vid v n draw h hv hn hwf
  refine ⟨h1, h3, ?_⟩
  intro pid prod hget
  obtain ⟨prod', hp1, _, _, hp4⟩ := h5 pid prod hget
  exact ⟨prod', hp1, hp4⟩

/-- Witness for C4 on the §8 scenario: sale 7 (receipt 123, total 300)
with one line of 3 units of product 1 whose stock is 7; voiding returns
the stock to 10, flags the sale void, and keeps the line. -/
theorem C4_anular_witness :
    getById (venta_anular
      ⟨[(1, ⟨"Martillo", 100, 7⟩)], [(7, ⟨0, some 123, 300, false⟩)],
       [(5, ⟨some 5, some 7, some 1, some 3, 100, 300, 0⟩)],
       [⟨1, Tipo.salida, 3, some "Venta 123"⟩]⟩ 7
      (fun _ => 2000000000000) ⟨0, rfl⟩).ventas 7 = some ⟨0, some 123, 300, true⟩ ∧
    (venta_anular
      ⟨[(1, ⟨"Martillo", 100, 7⟩)], [(7, ⟨0, some 123, 300, false⟩)],
       [(5, ⟨some 5, some 7, some 1, some 3, 100, 300, 0⟩)],
       [⟨1, Tipo.salida, 3, some "Venta 123"⟩]⟩ 7
      (fun _ => 2000000000000) ⟨0, rfl⟩).detalles =
        [(5, ⟨some 5, some 7, some 1, some 3, 100, 300, 0⟩)] ∧
    stockOf (venta_anular
      ⟨[(1, ⟨"Martillo", 100, 7⟩)], [(7, ⟨0, some 123, 300, false⟩)],
       [(5, ⟨some 5, some 7, some 1, some 3, 100, 300, 0⟩)],
       [⟨1, Tipo.salida, 3, some "Venta 123"⟩]⟩ 7
      (fun _ => 2000000000000) ⟨0, rfl⟩) 1 = some 10 := by
  obtain ⟨h1, h2, h3⟩ := C4_anular
    ⟨[(1, ⟨"Martillo", 100, 7⟩)], [(7, ⟨0, some 123, 300, false⟩)],
     [(5, ⟨some 5, some 7, some 1, some 3, 100, 300, 0⟩)],
     [⟨1, Tipo.salida, 3, some "Venta 123"⟩]⟩ 7 ⟨0, some 123, 300, false⟩ 123
    (fun _ => 2000000000000) ⟨0, rfl⟩ rfl rfl
    (by
      intro p hp pid hpid
      simp at hp
      rw [hp] at hpid
      simp at hpid
      rw [← hpid]
      rfl)
  obtain ⟨prod', hp1, hp2⟩ := h3 1 ⟨"Martillo", 100, 7⟩ rfl
  refine ⟨h1, h2, ?_⟩
  rw [stockOf, hp1]
  simp [cantidadRevertida] at hp2
  simp [hp2]

/-- C9: voiding a sale is frame-tight.  On the voided sale only `anulada`
changes — date, receipt number and stored total are copied verbatim;
every other sale row is untouched; the lines table is untouched (so every
line's quantity, unit price and subtotal survive); the movements table is
untouched; and of each product only the on-hand quantity can change — its
name and price survive. -/
theorem C9_anular_frame (db : DB) (vid : Nat) (v : Venta) (n : Nat) (draw : Nat → Nat)
    (h : ∃ i, numeroExiste db (draw i) = false)
    (hv : getById db.ventas vid = some v)
    (hn : v.numero_comprobante = some n)
    (hwf : ∀ p ∈ db.detalles.filter (fun p => p.2.venta == some vid), ∀ pid,
      p.2.producto = some pid → (getById db.productos pid).isSome) :
    getById (venta_anular db vid draw h).ventas vid =
      some ⟨v.fecha, v.numero_comprobante, v.importe_total, true⟩ ∧
    (∀ vid', vid' ≠ vid →
      getById (venta_anular db vid draw h).ventas vid' = getById db.ventas vid') ∧
    (venta_anular db vid draw h).detalles = db.detalles ∧
    (venta_anular db vid draw h).movimientos = db.movimientos ∧
    (∀ pid prod, getById db.productos pid = some prod →
      ∃ prod', getById (venta_anular db vid draw h).productos pid = some prod' ∧
        prod'.nombre = prod.nombre ∧ prod'.precio = prod.precio) := by
  obtain ⟨h1, h2, h3, h4, h5⟩ := venta_anular_spec db vid v n draw h hv hn hwf
  refine ⟨h1, h2, h3, h4, ?_⟩
  intro pid prod hget
  obtain ⟨prod', hp1, hp2, hp3, _⟩ := h5 pid prod hget
  exact ⟨prod', hp1, hp2, hp3⟩

/-- Witness for C9 on the §8 scenario plus a second untouched sale and
product: voiding sale 7 copies its date, number and total, leaves sale 8,
the line, the movement, and both products' names and prices intact. -/
theorem C9_anular_frame_witness :
    getById (venta_anular
      ⟨[(1, ⟨"Martillo", 100, 7⟩), (2, ⟨"Clavo", 5, 50⟩)],
       [(7, ⟨0, some 123, 300, false⟩), (8, ⟨1, some 456, 40, false⟩)],
       [(5, ⟨some 5, some 7, some 1, some 3, 100, 300, 0⟩)],
       [⟨1, Tipo.salida, 3, some "Venta 123"⟩]⟩ 7
      (fun _ => 2000000000000) ⟨0, rfl⟩).ventas 7 = some ⟨0, some 123, 300, true⟩ ∧
    getById (venta_anular
      ⟨[(1, ⟨"Martillo", 100, 7⟩), (2, ⟨"Clavo", 5, 50⟩)],
       [(7, ⟨0, some 123, 300, false⟩), (8, ⟨1, some 456, 40, false⟩)],
       [(5, ⟨some 5, some 7, some 1, some 3, 100, 300, 0⟩)],
       [⟨1, Tipo.salida, 3, some "Venta 123"⟩]⟩ 7
      (fun _ => 2000000000000) ⟨0, rfl⟩).ventas 8 = some ⟨1, some 456, 40, false⟩ ∧
    (venta_anular
      ⟨[(1, ⟨"Martillo", 100, 7⟩), (2, ⟨"Clavo", 5, 50⟩)],
       [(7, ⟨0, some 123, 300, false⟩), (8, ⟨1, some 456, 40, false⟩)],
       [(5, ⟨some 5, some 7, some 1, some 3, 100, 300, 0⟩)],
       [⟨1, Tipo.salida, 3, some "Venta 123"⟩]⟩ 7
      (fun _ => 2000000000000) ⟨0, rfl⟩).movimientos = [⟨1, Tipo.salida, 3, some "Venta 123"⟩] ∧
    (∃ prod', getById (venta_anular
      ⟨[(1, ⟨"Martillo", 100, 7⟩), (2, ⟨"Clavo", 5, 50⟩)],
       [(7, ⟨0, some 123, 300, false⟩), (8, ⟨1, some 456, 40, false⟩)],
       [(5, ⟨some 5, some 7, some 1, some 3, 100, 300, 0⟩)],
       [⟨1, Tipo.salida, 3, some "Venta 123"⟩]⟩ 7
      (fun _ => 2000000000000) ⟨0, rfl⟩).productos 1 = some prod' ∧
      prod'.nombre = "Martillo" ∧ prod'.precio = 100) := by
  obtain ⟨h1, h2, _, h4, h5⟩ := C9_anular_frame
    ⟨[(1, ⟨"Martillo", 100, 7⟩), (2, ⟨"Clavo", 5, 50⟩)],
     [(7, ⟨0, some 123, 300, false⟩), (8, ⟨1, some 456, 40, false⟩)],
     [(5, ⟨some 5, some 7, some 1, some 3, 100, 300, 0⟩)],
     [⟨1, Tipo.salida, 3, some "Venta 123"⟩]⟩ 7 ⟨0, some 123, 300, false⟩ 123
    (fun _ => 2000000000000) ⟨0, rfl⟩ rfl rfl
    (by
      intro p hp pid hpid
      simp at hp
      rw [hp] at hpid
      simp at hpid
      rw [← hpid]
      rfl)
  refine ⟨h1, ?_, by simpa using h4, ?_⟩
  · have := h2 8 (by decide)
    simpa using this
  · obtain ⟨prod', hp1, hp2, hp3⟩ := h5 1 ⟨"Martillo", 100, 7⟩ rfl
    exact ⟨prod', hp1, hp2, hp3⟩

/-- C3 counterexample: the stock decrement IS duplicated when the
creation event is delivered twice with the same receipt label, because it
sits outside the movement-dedup guard.  Product 1 starts at stock 10; the
handler runs twice for the same created line of 3 units of sale 7
(receipt 123): the movement is recorded once, but the stock ends at 4,
not at the 7 the claim's "exactly once — not duplicated even if
triggered twice" requires. -/
theorem C3_counterexample :
    stockOf (actualizar_stock_post_venta (actualizar_stock_post_venta
      ⟨[(1, ⟨"Martillo", 100, 10⟩)], [(7, ⟨0, some 123, 0, false⟩)], [], []⟩
      true ⟨some 5, some 7, some 1, some 3, 100, 300, 0⟩)
      true ⟨some 5, some 7, some 1, some 3, 100, 300, 0⟩) 1 = some 4 ∧
    (actualizar_stock_post_venta (actualizar_stock_post_venta
      ⟨[(1, ⟨"Martillo", 100, 10⟩)], [(7, ⟨0, some 123, 0, false⟩)], [], []⟩
      true ⟨some 5, some 7, some 1, some 3, 100, 300, 0⟩)
      true ⟨some 5, some 7, some 1, some 3, 100, 300, 0⟩).movimientos.length = 1 ∧
    some (4 : Int) ≠ some (10 - 3 : Int) := by
  exact ⟨rfl, rfl, by decide⟩

/-- C3 (amended): the post-sale stock effect fires only on sale-line
creation (an update event leaves the store untouched) and only when the
referenced sale's void flag is false at that moment.  Under those
conditions each delivery of the event decreases the product's stock by
the line quantity — so a duplicate delivery with the same receipt label
decrements twice — and it records one outbound movement of that quantity
labeled "Venta {numero}" unless a movement with the same label and
product already exists; in particular the duplicate delivery records no
second movement. -/
theorem C3_stock_amended (db : DB) (inst : DetalleVenta) (vid pid : Nat) (q : Int)
    (v : Venta) (prod : Producto)
    (hv : inst.venta = some vid) (hp : inst.producto = some pid) (hc : inst.cantidad = some q)
    (hgv : getById db.ventas vid = some v) (hgp : getById db.productos pid = some prod) :
    actualizar_stock_post_venta db false inst = db ∧
    (v.anulada = true → actualizar_stock_post_venta db true inst = db) ∧
    (v.anulada = false →
      stockOf (actualizar_stock_post_venta db true inst) pid =
        some (prod.cantidad_stock - q) ∧
      (movimientoExiste db (etiquetaVenta v.numero_comprobante) pid = false →
        (actualizar_stock_post_venta db true inst).movimientos =
          db.movimientos ++
            [⟨pid, Tipo.salida, q, some (etiquetaVenta v.numero_comprobante)⟩]) ∧
      (movimientoExiste db (etiquetaVenta v.numero_comprobante) pid = true →
        (actualizar_stock_post_venta db true inst).movimientos = db.movimientos) ∧
      stockOf (actualizar_stock_post_venta
        (actualizar_stock_post_venta db true inst) true inst) pid =
          some (prod.cantidad_stock - q - q) ∧
      (actualizar_stock_post_venta
        (actualizar_stock_post_venta db true inst) true inst).movimientos =
          (actualizar_stock_post_venta db true inst).movimientos) := by
  refine ⟨?_, ?_, ?_⟩
  · simp [actualizar_stock_post_venta, hv, hp, hc, hgv, hgp]
  · intro han
    simp [actualizar_stock_post_venta, hv, hp, hc, hgv, hgp, han]
  · intro han
    have hspec := actualizar_spec db inst vid pid q v prod hv hp hc hgv hgp han
    have hset : getById (actualizar_stock_post_venta db true inst).productos pid =
        some { prod with cantidad_stock := prod.cantidad_stock - q } := by
      rw [hspec]
      simp [Producto_save, getById_setById_self]
    have hven : getById (actualizar_stock_post_venta db true inst).ventas vid = some v := by
      rw [actualizar_preserva_ventas]
      exact hgv
    have hex2 : movimientoExiste (actualizar_stock_post_venta db true inst)
        (etiquetaVenta v.numero_comprobante) pid = true := by
      rw [hspec, movimientoExiste_Producto_save]
      by_cases hex : movimientoExiste db (etiquetaVenta v.numero_comprobante) pid
      · simp [hex]
      · simp only [hex, if_neg, Bool.false_eq_true, if_false]
        exact movimientoExiste_MovimientoStock_save db _ _ _ rfl rfl (by simp [hgp])
    have hspec2 := actualizar_spec (actualizar_stock_post_venta db true inst) inst vid pid q v
      { prod with cantidad_stock := prod.cantidad_stock - q } hv hp hc hven hset han
    refine ⟨?_, ?_, ?_, ?_, ?_⟩
    · rw [hspec, stockOf_Producto_save_self]
    · intro hex
      rw [hspec]
      show (if movimientoExiste db (etiquetaVenta v.numero_comprobante) pid then db
            else MovimientoStock_save db _).movimientos = _
      rw [hex]
      simp only [Bool.false_eq_true, if_false]
      exact MovimientoStock_save_movimientos db _ (by simp [hgp])
    · intro hex
      rw [hspec]
      show (if movimientoExiste db (etiquetaVenta v.numero_comprobante) pid then db
            else MovimientoStock_save db _).movimientos = _
      rw [hex]
      simp
    · rw [hspec2, hex2]
      simp only [if_true]
      rw [stockOf_Producto_save_self]
    · rw [hspec2, hex2]
      simp only [if_true]
      rfl

/-- Witness for C3 (amended) on the §8 scenario (product 1 at stock 10,
line of 3 units of sale 7, receipt 123): an update event changes nothing;
the creation event brings the stock to 7 and appends the labeled
movement; a duplicate delivery brings it to 4 while adding no movement. -/
theorem C3_stock_amended_witness :
    actualizar_stock_post_venta
      ⟨[(1, ⟨"Martillo", 100, 10⟩)], [(7, ⟨0, some 123, 0, false⟩)], [], []⟩
      false ⟨some 5, some 7, some 1, some 3, 100, 300, 0⟩ =
      ⟨[(1, ⟨"Martillo", 100, 10⟩)], [(7, ⟨0, some 123, 0, false⟩)], [], []⟩ ∧
    stockOf (actualizar_stock_post_venta
      ⟨[(1, ⟨"Martillo", 100, 10⟩)], [(7, ⟨0, some 123, 0, false⟩)], [], []⟩
      true ⟨some 5, some 7, some 1, some 3, 100, 300, 0⟩) 1 = some 7 ∧
    (actualizar_stock_post_venta
      ⟨[(1, ⟨"Martillo", 100, 10⟩)], [(7, ⟨0, some 123, 0, false⟩)], [], []⟩
      true ⟨some 5, some 7, some 1, some 3, 100, 300, 0⟩).movimientos =
      [⟨1, Tipo.salida, 3, some (etiquetaVenta (some 123))⟩] ∧
    stockOf (actualizar_stock_post_venta (actualizar_stock_post_venta
      ⟨[(1, ⟨"Martillo", 100, 10⟩)], [(7, ⟨0, some 123, 0, false⟩)], [], []⟩
      true ⟨some 5, some 7, some 1, some 3, 100, 300, 0⟩)
      true ⟨some 5, some 7, some 1, some 3, 100, 300, 0⟩) 1 = some 4 := by
  obtain ⟨h1, _, h3⟩ := C3_stock_amended
    ⟨[(1, ⟨"Martillo", 100, 10⟩)], [(7, ⟨0, some 123, 0, false⟩)], [], []⟩
    ⟨some 5, some 7, some 1, some 3, 100, 300, 0⟩ 7 1 3
    ⟨0, some 123, 0, false⟩ ⟨"Martillo", 100, 10⟩ rfl rfl rfl rfl rfl
  obtain ⟨hs1, hm1, _, hs2, _⟩ := h3 rfl
  exact ⟨h1, by simpa using hs1, by simpa using hm1 rfl, by simpa using hs2⟩

/-- C10: the handler preserves the invariant "at most one stock movement
per (receipt label, product)" — it appends a movement only after checking
none with that label and product exists; and when one already exists (as
after a first line for the same product on the same sale), handling a
further created line still decrements the product's stock by that line's
quantity but appends no movement record. -/
theorem C10_movimiento_unico (db : DB) (inst : DetalleVenta) (vid pid : Nat) (q : Int)
    (v : Venta) (prod : Producto)
    (hv : inst.venta = some vid) (hp : inst.producto = some pid) (hc : inst.cantidad = some q)
    (hgv : getById db.ventas vid = some v) (hgp : getById db.productos pid = some prod)
    (han : v.anulada = false) :
    (∀ label' pid', countMov db.movimientos label' pid' ≤ 1 →
      countMov (actualizar_stock_post_venta db true inst).movimientos label' pid' ≤ 1) ∧
    (movimientoExiste db (etiquetaVenta v.numero_comprobante) pid = true →
      (actualizar_stock_post_venta db true inst).movimientos = db.movimientos ∧
      stockOf (actualizar_stock_post_venta db true inst) pid =
        some (prod.cantidad_stock - q)) := by
  have hspec := actualizar_spec db inst vid pid q v prod hv hp hc hgv hgp han
  constructor
  · intro label' pid' hle
    by_cases hex : movimientoExiste db (etiquetaVenta v.numero_comprobante) pid
    · rw [hspec]
      show countMov (if movimientoExiste db (etiquetaVenta v.numero_comprobante) pid then db
        else MovimientoStock_save db _).movimientos label' pid' ≤ 1
      simp only [hex, if_true]
      exact hle
    · have hexf : movimientoExiste db (etiquetaVenta v.numero_comprobante) pid = false := by
        simpa using hex
      rw [hspec]
      show countMov (if movimientoExiste db (etiquetaVenta v.numero_comprobante) pid then db
        else MovimientoStock_save db _).movimientos label' pid' ≤ 1
      simp only [hexf, Bool.false_eq_true, if_false]
      rw [MovimientoStock_save_movimientos db _ (by simp [hgp]), countMov_append_single]
      by_cases hm : ((some (etiquetaVenta v.numero_comprobante) == some label') &&
          (pid == pid')) = true
      · simp only [Bool.and_eq_true, beq_iff_eq, Option.some_inj] at hm
        obtain ⟨hlab, hpid⟩ := hm
        subst hlab
        subst hpid
        have := countMov_eq_zero db (etiquetaVenta v.numero_comprobante) pid hexf
        simp [this]
      · simp only [hm, if_false]
        simpa using hle
  · intro hex
    constructor
    · rw [hspec]
      show (if movimientoExiste db (etiquetaVenta v.numero_comprobante) pid then db
        else MovimientoStock_save db _).movimientos = _
      rw [hex]
      simp
    · rw [hspec, stockOf_Producto_save_self]

/-- Witness for C10: after the §8 scenario's first line is processed
(stock 7, one movement "Venta 123" for product 1), handling a second
created line of 2 units for the same product and the same sale keeps the
movements list unchanged, drops the stock to 5, and the (label, product)
multiplicity stays at most 1. -/
theorem C10_movimiento_unico_witness :
    (actualizar_stock_post_venta
      ⟨[(1, ⟨"Martillo", 100, 7⟩)], [(7, ⟨0, some 123, 300, false⟩)],
       [(5, ⟨some 5, some 7, some 1, some 3, 100, 300, 0⟩),
        (6, ⟨some 6, some 7, some 1, some 2, 100, 200, 0⟩)],
       [⟨1, Tipo.salida, 3, some "Venta 123"⟩]⟩
      true ⟨some 6, some 7, some 1, some 2, 100, 200, 0⟩).movimientos =
      [⟨1, Tipo.salida, 3, some "Venta 123"⟩] ∧
    stockOf (actualizar_stock_post_venta
      ⟨[(1, ⟨"Martillo", 100, 7⟩)], [(7, ⟨0, some 123, 300, false⟩)],
       [(5, ⟨some 5, some 7, some 1, some 3, 100, 300, 0⟩),
        (6, ⟨some 6, some 7, some 1, some 2, 100, 200, 0⟩)],
       [⟨1, Tipo.salida, 3, some "Venta 123"⟩]⟩
      true ⟨some 6, some 7, some 1, some 2, 100, 200, 0⟩) 1 = some 5 ∧
    countMov (actualizar_stock_post_venta
      ⟨[(1, ⟨"Martillo", 100, 7⟩)], [(7, ⟨0, some 123, 300, false⟩)],
       [(5, ⟨some 5, some 7, some 1, some 3, 100, 300, 0⟩),
        (6, ⟨some 6, some 7, some 1, some 2, 100, 200, 0⟩)],
       [⟨1, Tipo.salida, 3, some "Venta 123"⟩]⟩
      true ⟨some 6, some 7, some 1, some 2, 100, 200, 0⟩).movimientos "Venta 123" 1 ≤ 1 := by
  obtain ⟨h1, h2⟩ := C10_movimiento_unico
    ⟨[(1, ⟨"Martillo", 100, 7⟩)], [(7, ⟨0, some 123, 300, false⟩)],
     [(5, ⟨some 5, some 7, some 1, some 3, 100, 300, 0⟩),
      (6, ⟨some 6, some 7, some 1, some 2, 100, 200, 0⟩)],
     [⟨1, Tipo.salida, 3, some "Venta 123"⟩]⟩
    ⟨some 6, some 7, some 1, some 2, 100, 200, 0⟩ 7 1 2
    ⟨0, some 123, 300, false⟩ ⟨"Martillo", 100, 7⟩ rfl rfl rfl rfl rfl rfl
  obtain ⟨hm, hs⟩ := h2 (by rfl)
  exact ⟨hm, by simpa using hs, h1 "Venta 123" 1 (by rfl)⟩

/-- C8: the sale-line creation path performs no quantity validation.
`DetalleVentaForm.clean_cantidad` (which views.py imports but never
calls) rejects a missing or non-positive quantity with a field-level
error, yet `venta_agregar` feeds the raw quantity straight into
`DetalleVenta.objects.create`: with quantity 0 the line is persisted (no
abort) and a zero-quantity outbound movement is recorded; with quantity
-3 the line is persisted with subtotal -300, the sale total becomes
-300, and the product's stock RISES from 10 to 13 — partial writes
everywhere the claim promises none. -/
theorem C8_validacion_omitida :
    clean_cantidad (some 0) = Except.error "La cantidad debe ser un número positivo." ∧
    clean_cantidad (some (-3)) = Except.error "La cantidad debe ser un número positivo." ∧
    clean_cantidad none = Except.error "La cantidad debe ser un número positivo." ∧
    (venta_agregar_linea ⟨[(1, ⟨"Martillo", 100, 10⟩)], [(7, ⟨0, some 123, 0, false⟩)], [], []⟩
      5 7 1 0).detalles = [(5, ⟨some 5, some 7, some 1, some 0, 100, 0, 0⟩)] ∧
    (venta_agregar_linea ⟨[(1, ⟨"Martillo", 100, 10⟩)], [(7, ⟨0, some 123, 0, false⟩)], [], []⟩
      5 7 1 (-3)).detalles = [(5, ⟨some 5, some 7, some 1, some (-3), 100, -300, 0⟩)] ∧
    stockOf (venta_agregar_linea
      ⟨[(1, ⟨"Martillo", 100, 10⟩)], [(7, ⟨0, some 123, 0, false⟩)], [], []⟩
      5 7 1 (-3)) 1 = some 13 ∧
    (getById (venta_agregar_linea
      ⟨[(1, ⟨"Martillo", 100, 10⟩)], [(7, ⟨0, some 123, 0, false⟩)], [], []⟩
      5 7 1 (-3)).ventas 7).map Venta.importe_total = some (-300) := by
  exact ⟨rfl, rfl, rfl, rfl, rfl, rfl, rfl⟩

end Ferreteria
